import Mathlib

/-
Verification of the Provider contract in `src/ell/provider.py`.

The development shallowly embeds the module: Python dictionaries become
association lists (`List (String × PyVal)`), Python runtime values become the
inductive `PyVal`, `inspect.signature(...).parameters` becomes an ordered list
of named `Param` records carried by each backend callable, and each `assert`
becomes an `Except` error of the corresponding contract-violation kind.
Python exceptions raised by evaluating an expression (for example a
`TypeError` from hashing an unhashable object, or from binding call
arguments) are embedded as `PyErr` values.
-/

set_option autoImplicit false

namespace EllProvider

/-- Runtime type tags for the Python values this module manipulates. -/
inductive PyType where
  | int
  | str
  | float
  | bool
  | tuple
  | dict
  | dictKeys
  | nonetype
  deriving DecidableEq, Repr

/-- Python runtime values as they flow through `provider.py`: scalars, the
parameter dictionaries, tuples (for variadic-positional packing), and the
`dict_keys` view object produced by `dict.keys()`.  Float payloads are opaque
to every operation in this module, so they are carried as their literal. -/
inductive PyVal where
  | vNone
  | vBool (b : Bool)
  | vInt (n : Int)
  | vFloat (lit : String)
  | vStr (s : String)
  | vTuple (elems : List PyVal)
  | vDict (entries : List (String × PyVal))
  | vKeysView (keys : List String)

/-- The runtime type tag of a value (Python `type(v)`). -/
def typeOf : PyVal → PyType
  | .vNone => .nonetype
  | .vBool _ => .bool
  | .vInt _ => .int
  | .vFloat _ => .float
  | .vStr _ => .str
  | .vTuple _ => .tuple
  | .vDict _ => .dict
  | .vKeysView _ => .dictKeys

/-- Display name of a runtime type, as it appears in Python error messages. -/
def pyTypeName : PyVal → String
  | .vNone => "NoneType"
  | .vBool _ => "bool"
  | .vInt _ => "int"
  | .vFloat _ => "float"
  | .vStr _ => "str"
  | .vTuple _ => "tuple"
  | .vDict _ => "dict"
  | .vKeysView _ => "dict_keys"

/-- Whether Python can hash the value.  `dict_keys` defines `__eq__` without
`__hash__`, so (like `dict`) it is unhashable; the scalar types and tuples
are hashable. -/
def pyHashable : PyVal → Bool
  | .vNone => true
  | .vBool _ => true
  | .vInt _ => true
  | .vFloat _ => true
  | .vStr _ => true
  | .vTuple _ => true
  | .vDict _ => false
  | .vKeysView _ => false

/-- Python `v == s` for a string literal `s`: string values compare by
content, every other builtin type compares unequal to a string. -/
def pyEqStr : PyVal → String → Bool
  | .vStr a, s => a == s
  | _, _ => false

/-- Python `isinstance(v, t)` for the declared types this module can meet:
the runtime tag must match, except that `bool` is a subclass of `int`. -/
def pyIsInstance (v : PyVal) (t : PyType) : Bool :=
  typeOf v == t || (typeOf v == .bool && t == .int)

/-- Embedded Python exceptions (distinct from contract-violation asserts). -/
inductive PyErr where
  | typeError (msg : String)
  | exn (tag : String)
  deriving DecidableEq, Repr

/-- Dictionary membership `k in d` on the association-list embedding. -/
def memD (k : String) (d : List (String × PyVal)) : Bool :=
  d.any (fun e => e.1 == k)

/-- The key view `d.keys()` of a dictionary, in insertion order. -/
def keysD (d : List (String × PyVal)) : List String :=
  d.map Prod.fst

/-- Membership of an arbitrary object in a `frozenset` of strings.  Python
first hashes the candidate; an unhashable candidate raises `TypeError`
before any comparison, otherwise membership is equality with some element. -/
def frozensetOfStrContains (elems : List String) (x : PyVal) : Except PyErr Bool :=
  if pyHashable x then
    .ok (elems.any (fun s => pyEqStr x s))
  else
    .error (.typeError ("unhashable type: " ++ pyTypeName x))

/-- The kind of a parameter in an introspected signature
(`inspect.Parameter.kind`). -/
inductive ParamKind where
  | positionalOnly
  | positionalOrKeyword
  | varPositional
  | keywordOnly
  | varKeyword
  deriving DecidableEq, Repr

/-- One entry of `inspect.signature(call).parameters`: an optional default
(`none` embeds `Parameter.empty`), an optional declared type (the
parameter's declared type tag; `none` embeds an empty declaration), and the
parameter kind. -/
structure Param where
  default : Option PyVal
  ann : Option PyType
  kind : ParamKind

/-- An introspected signature: the ordered mapping from parameter name to
`Param`, as `inspect.signature(call).parameters` presents it. -/
abbrev Sig : Type := List (String × Param)

/-- Lookup of a parameter by name in a signature. -/
def lookupSig (sig : Sig) (n : String) : Option Param :=
  (List.find? (fun np => np.1 == n) sig).map Prod.snd

/-- Name membership in a signature (`param_name in provider_call_params`). -/
def memSig (n : String) (sig : Sig) : Bool :=
  List.any sig (fun np => np.1 == n)

/-- Modelled from the spec: the provenance-tagged string type `_lstr`
(module `ell.types._lstr`, not under `src/`).  Per the spec, a message text
projection is either a plain string or a provenance-tagged string whose
recorded origin can be read back; the recorded origin is optional. -/
inductive TextVal where
  | plain (s : String)
  | lstr (s : String) (origin : Option String)
  deriving DecidableEq, Repr

/-- The underlying character content of a text value. -/
def TextVal.str : TextVal → String
  | .plain s => s
  | .lstr s _ => s

/-- A conversation message as this module consumes and produces it: the
`text` projection is the only field the module reads (content blocks are
external collaborator data projected into it), plus the role. -/
structure Message where
  role : String
  text : TextVal
  deriving DecidableEq, Repr

/-- Contract violations, one per `assert` in the module, under the names the
specification gives them. -/
inductive ContractViolation where
  | MissingRequiredParam (name : String)
  | UnexpectedParam (name : String)
  | TypeMismatch (name : String) (expected : PyType) (actual : PyVal)
  | DisallowedParam
  | UntrackedMessage (message : Message)

/-- Names of the required parameters of a signature, in signature order: a
parameter is required when it has no default and is not the catch-all
keyword sink (the comprehension at lines 111-114 of `provider.py`). -/
def requiredNames (sig : Sig) : List String :=
  (List.filter (fun np => np.2.default.isNone && np.2.kind != ParamKind.varKeyword) sig).map
    Prod.fst

/-- First loop of `_validate_provider_call_params` (lines 116-117): each
required parameter name must be a key of the converted call parameters. -/
def checkRequired (api_call_params : List (String × PyVal)) :
    List String → Except ContractViolation Unit
  | [] => .ok ()
  | n :: rest =>
    if memD n api_call_params then checkRequired api_call_params rest
    else .error (.MissingRequiredParam n)

/-- Second loop of `_validate_provider_call_params` (lines 119-124): each
supplied key must be a parameter name of the signature, and when that
parameter declares a type the supplied value must be an instance of it. -/
def checkProvided (sig : Sig) :
    List (String × PyVal) → Except ContractViolation Unit
  | [] => .ok ()
  | (n, v) :: rest =>
    match lookupSig sig n with
    | none => .error (.UnexpectedParam n)
    | some p =>
      match p.ann with
      | none => checkProvided sig rest
      | some t =>
        if pyIsInstance v t then checkProvided sig rest
        else .error (.TypeMismatch n t v)

/-- Embedding of `_validate_provider_call_params` (lines 108-124): the
required-parameter loop runs first, then the per-key membership and type
loop.  The first failing `assert` determines the violation reported. -/
def validate_provider_call_params (api_call_params : List (String × PyVal))
    (sig : Sig) : Except ContractViolation Unit :=
  match checkRequired api_call_params (requiredNames sig) with
  | .error e => .error e
  | .ok _ => checkProvided sig api_call_params

/-- Whether a message passes the two provenance asserts for a given origin:
its text is a tagged string and the recorded origin equals the supplied one
(Python `None == origin_id` is `False`). -/
def isTracked (origin_id : String) (m : Message) : Bool :=
  match m.text with
  | .plain _ => false
  | .lstr _ o => o == some origin_id

/-- Loop body of `_validate_messages_are_tracked` (lines 130-132). -/
def checkTracked (origin_id : String) :
    List Message → Except ContractViolation Unit
  | [] => .ok ()
  | m :: rest =>
    if isTracked origin_id m then checkTracked origin_id rest
    else .error (.UntrackedMessage m)

/-- Embedding of `_validate_messages_are_tracked` (lines 127-132): return
immediately when no origin is supplied, otherwise check every message. -/
def validate_messages_are_tracked (messages : List Message)
    (origin_id : Option String) : Except ContractViolation Unit :=
  match origin_id with
  | none => .ok ()
  | some oid => checkTracked oid messages

/-- Python call-argument binding, step 1: keyword arguments are matched
against the signature in order.  A keyword naming a positional-or-keyword or
keyword-only parameter binds it unless it was already bound positionally; any
other keyword goes to the catch-all keyword sink when one exists, and raises
`TypeError` otherwise.  Returns the keyword bindings and the sink entries. -/
def processKw (sig : Sig) (hasVarKw : Bool) (posBound : List (String × PyVal)) :
    List (String × PyVal) →
      Except PyErr (List (String × PyVal) × List (String × PyVal))
  | [] => .ok ([], [])
  | (k, v) :: rest =>
    match lookupSig sig k with
    | some p =>
      if p.kind == ParamKind.positionalOrKeyword || p.kind == ParamKind.keywordOnly then
        if posBound.any (fun b => b.1 == k) then
          .error (.typeError ("multiple values for argument: " ++ k))
        else do
          let (nb, sk) ← processKw sig hasVarKw posBound rest
          .ok ((k, v) :: nb, sk)
      else if hasVarKw then do
        let (nb, sk) ← processKw sig hasVarKw posBound rest
        .ok (nb, (k, v) :: sk)
      else .error (.typeError ("unexpected keyword argument: " ++ k))
    | none =>
      if hasVarKw then do
        let (nb, sk) ← processKw sig hasVarKw posBound rest
        .ok (nb, (k, v) :: sk)
      else .error (.typeError ("unexpected keyword argument: " ++ k))

/-- Python call-argument binding, step 2: walk the signature and complete the
environment.  An unbound parameter takes its default; the variadic sinks pack
the leftover positional arguments and the unmatched keywords; an unbound
parameter with no default raises `TypeError`. -/
def fillDefaults (bound : List (String × PyVal)) (extraPos : List PyVal)
    (sink : List (String × PyVal)) : Sig → Except PyErr (List (String × PyVal))
  | [] => .ok []
  | (n, p) :: rest =>
    match List.find? (fun b => b.1 == n) bound with
    | some b => do
      let env ← fillDefaults bound extraPos sink rest
      .ok (b :: env)
    | none =>
      match p.kind with
      | .varPositional => do
        let env ← fillDefaults bound extraPos sink rest
        .ok ((n, PyVal.vTuple extraPos) :: env)
      | .varKeyword => do
        let env ← fillDefaults bound extraPos sink rest
        .ok ((n, PyVal.vDict sink) :: env)
      | _ =>
        match p.default with
        | some d => do
          let env ← fillDefaults bound extraPos sink rest
          .ok ((n, d) :: env)
        | none => .error (.typeError ("missing a required argument: " ++ n))

/-- Python call-argument binding for `f(pos..., kw...)`: positional arguments
fill the positional-capable parameters left to right (the overflow goes to a
variadic positional parameter when one exists and raises `TypeError`
otherwise), then keywords are matched and defaults filled. -/
def bindArgs (sig : Sig) (pos : List PyVal) (kw : List (String × PyVal)) :
    Except PyErr (List (String × PyVal)) :=
  let posParams := List.filter
    (fun np => np.2.kind == ParamKind.positionalOnly
      || np.2.kind == ParamKind.positionalOrKeyword) sig
  let hasVarPos := List.any sig (fun np => np.2.kind == ParamKind.varPositional)
  let hasVarKw := List.any sig (fun np => np.2.kind == ParamKind.varKeyword)
  if pos.length > posParams.length && !hasVarPos then
    .error (.typeError "too many positional arguments")
  else do
    let posBound := (posParams.map Prod.fst).zip pos
    let extraPos := pos.drop posParams.length
    let (kwBound, sink) ← processKw sig hasVarKw posBound kw
    fillDefaults (posBound ++ kwBound) extraPos sink sig

/-- What invoking the backend call function can produce: an ordinary value,
another callable (a signature plus a body on the bound environment), or a
raised exception wrapped in the surrounding `Except`. -/
inductive CallResult where
  | val (v : PyVal)
  | fn (sig2 : Sig) (run2 : List (String × PyVal) → Except PyErr PyVal)

/-- A backend call function as `provider_call_function` returns it: its
introspectable signature (what `inspect.signature(call).parameters` yields,
which `_call_params` memoizes) and its behavior on a bound argument
environment. -/
structure Backend where
  sig : Sig
  run : List (String × PyVal) → Except PyErr CallResult

/-- Embedding of line 91, `call(final_api_call_params)(**final_api_call_params)`:
the backend call function is first invoked with the whole parameter
dictionary as one positional argument, and whatever that returns is invoked
again with the dictionary spread as keyword arguments.  Invoking a
non-callable result raises `TypeError`. -/
def invokeLine91 (callFn : Backend) (final_api_call_params : List (String × PyVal)) :
    Except PyErr PyVal := do
  let env1 ← bindArgs callFn.sig [PyVal.vDict final_api_call_params] []
  let r ← callFn.run env1
  match r with
  | .val v => .error (.typeError (pyTypeName v ++ " object is not callable"))
  | .fn sig2 run2 => do
    let env2 ← bindArgs sig2 [] final_api_call_params
    run2 env2

/-- Embedding of `EllCallParams` (lines 18-26): the normalized call
descriptor.  The opaque client handle is an arbitrary value and tools are an
opaque optional list of tool identifiers. -/
structure EllCallParams where
  model : String
  messages : List Message
  client : PyVal
  tools : Option (List String)
  api_params : List (String × PyVal)

/-- Backend-defined auxiliary response fields, opaque to the module. -/
def Metadata : Type := List (String × PyVal)

/-- Embedding of the `Provider` capability set: the backend call function
(possibly depending on the hinted parameters) and the two translations.  The
optional logger sink is opaque and behavior-free, so it is elided. -/
structure Provider where
  provider_call_function :
    Option (List (String × PyVal)) → Backend
  translate_to_provider : EllCallParams → List (String × PyVal)
  translate_from_provider :
    PyVal → EllCallParams → Option String → List Message × Metadata

/-- Embedding of `Provider.disallowed_api_params` (lines 52-56): the
frozenset literal, as the list of its elements in source order. -/
def disallowed_api_params : List String :=
  ["messages", "tools", "model"]

/-- Embedding of `Provider.available_api_params` (lines 58-60): the key set
of the introspected parameters of the backend call function, minus the
disallowed set. -/
def Provider.available_api_params (p : Provider)
    (api_params : Option (List (String × PyVal))) : Finset String :=
  (((p.provider_call_function api_params).sig.map Prod.fst).toFinset) \
    disallowed_api_params.toFinset

/-- The two classes of failure `Provider.call` can surface: a contract
violation raised by one of the module's own asserts, or a Python exception
raised while evaluating an expression (including whatever the backend call
function raises). -/
inductive CallError where
  | contract (v : ContractViolation)
  | py (e : PyErr)

/-- Lift a validator result into the call pipeline. -/
def liftC : Except ContractViolation Unit → Except CallError Unit
  | .ok () => .ok ()
  | .error v => .error (.contract v)

/-- Lift a Python-exception result into the call pipeline. -/
def liftP {α : Type} : Except PyErr α → Except CallError α
  | .ok a => .ok a
  | .error e => .error (.py e)

/-- Embedding of line 82,
`assert ell_call.api_params.keys() not in self.disallowed_api_params()`:
the whole key view is tested for membership, as a single element, in the
frozenset of disallowed names.  Evaluating the membership first hashes the
key-view object; if that raises, the exception propagates, otherwise the
assert fails exactly when the membership holds. -/
def assertKeysNotDisallowed (api_params : List (String × PyVal)) :
    Except CallError Unit :=
  match frozensetOfStrContains disallowed_api_params (PyVal.vKeysView (keysD api_params)) with
  | .error e => .error (.py e)
  | .ok true => .error (.contract .DisallowedParam)
  | .ok false => .ok ()

/-- Embedding of `Provider.call` (lines 80-97): the disallowed-parameter
assert, translation to native parameters, retrieval of the backend call
function, parameter validation, the line-91 invocation, translation back,
and provenance validation. -/
def Provider.call (p : Provider) (ell_call : EllCallParams)
    (origin_id : Option String) :
    Except CallError (List Message × List (String × PyVal) × Metadata) := do
  assertKeysNotDisallowed ell_call.api_params
  let final_api_call_params := p.translate_to_provider ell_call
  let callFn := p.provider_call_function (some final_api_call_params)
  liftC (validate_provider_call_params final_api_call_params callFn.sig)
  let provider_resp ← liftP (invokeLine91 callFn final_api_call_params)
  let mm := p.translate_from_provider provider_resp ell_call origin_id
  liftC (validate_messages_are_tracked mm.1 origin_id)
  .ok (mm.1, final_api_call_params, mm.2)

/-! Concrete instances used to evaluate the orchestrated call: the spec's
stub scenario (a backend call function requiring `model` and `prompt` with
an optional `temperature`) and a backend whose invocation raises. -/

/-- Signature of the spec scenario's stub backend call function: required
`model : str` and `prompt : str`, optional `temperature`. -/
def stubSig : Sig :=
  [("model", { default := none, ann := some .str, kind := .positionalOrKeyword }),
   ("prompt", { default := none, ann := some .str, kind := .positionalOrKeyword }),
   ("temperature", { default := some .vNone, ann := none, kind := .positionalOrKeyword })]

/-- The stub backend call function: returns a raw response value. -/
def stubBackend : Backend :=
  { sig := stubSig
    run := fun _ => .ok (.val (.vStr "raw-response")) }

/-- Text of the first message of a conversation (empty when none). -/
def firstText : List Message → String
  | [] => ""
  | m :: _ => m.text.str

/-- The spec scenario's Provider: translation assembles
`model`, `prompt` from the descriptor and layers the extra parameters on
top; the backward translation produces one assistant message, tagged with
the origin when one is supplied. -/
def stubProvider : Provider :=
  { provider_call_function := fun _ => stubBackend
    translate_to_provider := fun ec =>
      [("model", .vStr ec.model), ("prompt", .vStr (firstText ec.messages))] ++ ec.api_params
    translate_from_provider := fun _ _ oid =>
      ([{ role := "assistant",
          text := match oid with
            | some o => .lstr "ok" (some o)
            | none => .plain "ok" }], []) }

/-- The spec scenario's call descriptor: `model = "m1"`, one user message
`"hi"`, `extraParams = { temperature: 0.2 }`. -/
def stubEllCall : EllCallParams :=
  { model := "m1"
    messages := [{ role := "user", text := .plain "hi" }]
    client := .vNone
    tools := none
    api_params := [("temperature", .vFloat "0.2")] }

/-- The same descriptor with the disallowed extra parameter
`model = "other"` (the input of spec property P6). -/
def overrideModelEllCall : EllCallParams :=
  { model := "m1"
    messages := [{ role := "user", text := .plain "hi" }]
    client := .vNone
    tools := none
    api_params := [("model", .vStr "other")] }

/-- A backend call function that accepts anything and raises. -/
def boomBackend : Backend :=
  { sig := [("kwargs", { default := none, ann := none, kind := .varKeyword })]
    run := fun _ => .error (.exn "boom") }

/-- A Provider wired to the raising backend. -/
def boomProvider : Provider :=
  { provider_call_function := fun _ => boomBackend
    translate_to_provider := fun ec => ec.api_params
    translate_from_provider := fun _ _ _ => ([], []) }

/-- A descriptor with empty extra parameters for the raising backend. -/
def boomEllCall : EllCallParams :=
  { model := "m2"
    messages := []
    client := .vNone
    tools := none
    api_params := [] }

/-- A signature with required `a` and `b` and a catch-all keyword sink. -/
def sigWithSink : Sig :=
  [("a", { default := none, ann := none, kind := .positionalOrKeyword }),
   ("b", { default := none, ann := none, kind := .positionalOrKeyword }),
   ("kwargs", { default := none, ann := none, kind := .varKeyword })]

/-- A signature declaring one parameter `n` of type `int`. -/
def sigTyped : Sig :=
  [("n", { default := none, ann := some .int, kind := .positionalOrKeyword })]

/-- A signature declaring only a variadic positional parameter `args`. -/
def sigVarArgs : Sig :=
  [("args", { default := none, ann := none, kind := .varPositional })]

/-- A backend call function declaring parameters named `model`, `messages`,
`tools` and `temperature`. -/
def sneakyBackend : Backend :=
  { sig :=
      [("model", { default := none, ann := none, kind := .positionalOrKeyword }),
       ("messages", { default := none, ann := none, kind := .positionalOrKeyword }),
       ("tools", { default := none, ann := none, kind := .positionalOrKeyword }),
       ("temperature", { default := some .vNone, ann := none, kind := .positionalOrKeyword })]
    run := fun _ => .ok (.val .vNone) }

/-- A Provider wired to the backend that reuses the disallowed names. -/
def sneakyProvider : Provider :=
  { provider_call_function := fun _ => sneakyBackend
    translate_to_provider := fun ec => ec.api_params
    translate_from_provider := fun _ _ _ => ([], []) }

/-! Basic facts about the validator loops. -/

theorem checkRequired_ok_iff (api : List (String × PyVal)) (ns : List String) :
    checkRequired api ns = .ok () ↔ ∀ n ∈ ns, memD n api = true := by
  induction ns with
  | nil => simp [checkRequired]
  | cons n rest ih =>
    simp only [checkRequired]
    by_cases h : memD n api = true
    · rw [if_pos h, ih]
      constructor
      · intro hall m hm
        rcases List.mem_cons.mp hm with rfl | hm
        · exact h
        · exact hall m hm
      · intro hall m hm
        exact hall m (List.mem_cons_of_mem _ hm)
    · rw [if_neg h]
      constructor
      · intro hc
        exact absurd hc (by simp)
      · intro hall
        exact absurd (hall n (List.mem_cons_self n rest)) h

theorem checkRequired_error (api : List (String × PyVal)) (ns : List String)
    (e : ContractViolation) (h : checkRequired api ns = .error e) :
    ∃ m, e = .MissingRequiredParam m ∧ m ∈ ns ∧ memD m api = false := by
  induction ns with
  | nil => exact absurd h (by simp [checkRequired])
  | cons n rest ih =>
    simp only [checkRequired] at h
    by_cases hm : memD n api = true
    · rw [if_pos hm] at h
      obtain ⟨m, h1, h2, h3⟩ := ih h
      exact ⟨m, h1, List.mem_cons_of_mem _ h2, h3⟩
    · rw [if_neg hm] at h
      injection h with h'
      exact ⟨n, h'.symm, List.mem_cons_self _ _, by simpa using hm⟩

theorem checkRequired_error_of_missing (api : List (String × PyVal))
    (ns : List String) (h : ∃ n ∈ ns, memD n api = false) :
    ∃ m, checkRequired api ns = .error (.MissingRequiredParam m)
      ∧ m ∈ ns ∧ memD m api = false := by
  induction ns with
  | nil =>
    obtain ⟨n, hn, _⟩ := h
    cases hn
  | cons n rest ih =>
    obtain ⟨x, hx, hxf⟩ := h
    by_cases hm : memD n api = true
    · have hrest : ∃ y ∈ rest, memD y api = false := by
        rcases List.mem_cons.mp hx with rfl | hx'
        · rw [hxf] at hm
          cases hm
        · exact ⟨x, hx', hxf⟩
      obtain ⟨m, h1, h2, h3⟩ := ih hrest
      refine ⟨m, ?_, List.mem_cons_of_mem _ h2, h3⟩
      simp only [checkRequired]
      rw [if_pos hm]
      exact h1
    · refine ⟨n, ?_, List.mem_cons_self _ _, by simpa using hm⟩
      simp only [checkRequired]
      rw [if_neg hm]

theorem checkProvided_ne_missing (sig : Sig) (api : List (String × PyVal))
    (m : String) :
    checkProvided sig api ≠ .error (.MissingRequiredParam m) := by
  induction api with
  | nil => simp [checkProvided]
  | cons nv rest ih =>
    obtain ⟨n, v⟩ := nv
    cases hl : lookupSig sig n with
    | none => simp [checkProvided, hl]
    | some p =>
      cases hann : p.ann with
      | none => simpa [checkProvided, hl, hann] using ih
      | some t =>
        by_cases hin : pyIsInstance v t = true
        · simpa [checkProvided, hl, hann, hin] using ih
        · simp [checkProvided, hl, hann, hin]

theorem checkProvided_append_ok (sig : Sig) (pre rest : List (String × PyVal))
    (h : checkProvided sig pre = .ok ()) :
    checkProvided sig (pre ++ rest) = checkProvided sig rest := by
  induction pre with
  | nil => simp
  | cons nv pre ih =>
    obtain ⟨n, v⟩ := nv
    cases hl : lookupSig sig n with
    | none =>
      simp [checkProvided, hl] at h
    | some p =>
      cases hann : p.ann with
      | none =>
        simp only [checkProvided, hl, hann, List.cons_append] at h ⊢
        exact ih h
      | some t =>
        by_cases hin : pyIsInstance v t = true
        · simp only [checkProvided, hl, hann, hin, if_true, List.cons_append] at h ⊢
          exact ih h
        · simp [checkProvided, hl, hann, hin] at h

theorem validate_eq_provided (api : List (String × PyVal)) (sig : Sig)
    (h : checkRequired api (requiredNames sig) = .ok ()) :
    validate_provider_call_params api sig = checkProvided sig api := by
  unfold validate_provider_call_params
  rw [h]

theorem validate_eq_error (api : List (String × PyVal)) (sig : Sig)
    (e : ContractViolation)
    (h : checkRequired api (requiredNames sig) = .error e) :
    validate_provider_call_params api sig = .error e := by
  unfold validate_provider_call_params
  rw [h]

theorem checkTracked_ok_iff (oid : String) (msgs : List Message) :
    checkTracked oid msgs = .ok () ↔ ∀ m ∈ msgs, isTracked oid m = true := by
  induction msgs with
  | nil => simp [checkTracked]
  | cons m rest ih =>
    simp only [checkTracked]
    by_cases h : isTracked oid m = true
    · rw [if_pos h, ih]
      constructor
      · intro hall x hx
        rcases List.mem_cons.mp hx with rfl | hx
        · exact h
        · exact hall x hx
      · intro hall x hx
        exact hall x (List.mem_cons_of_mem _ hx)
    · rw [if_neg h]
      constructor
      · intro hc
        exact absurd hc (by simp)
      · intro hall
        exact absurd (hall m (List.mem_cons_self m rest)) h

theorem checkTracked_error (oid : String) (msgs : List Message)
    (e : ContractViolation) (h : checkTracked oid msgs = .error e) :
    ∃ m, e = .UntrackedMessage m ∧ m ∈ msgs ∧ isTracked oid m = false := by
  induction msgs with
  | nil => exact absurd h (by simp [checkTracked])
  | cons m rest ih =>
    simp only [checkTracked] at h
    by_cases hm : isTracked oid m = true
    · rw [if_pos hm] at h
      obtain ⟨x, h1, h2, h3⟩ := ih h
      exact ⟨x, h1, List.mem_cons_of_mem _ h2, h3⟩
    · rw [if_neg hm] at h
      injection h with h'
      exact ⟨m, h'.symm, List.mem_cons_self _ _, by simpa using hm⟩

theorem checkTracked_error_of_untracked (oid : String) (msgs : List Message)
    (h : ∃ m ∈ msgs, isTracked oid m = false) :
    ∃ m, checkTracked oid msgs = .error (.UntrackedMessage m)
      ∧ m ∈ msgs ∧ isTracked oid m = false := by
  induction msgs with
  | nil =>
    obtain ⟨m, hm, _⟩ := h
    cases hm
  | cons m rest ih =>
    obtain ⟨x, hx, hxf⟩ := h
    by_cases hm : isTracked oid m = true
    · have hrest : ∃ y ∈ rest, isTracked oid y = false := by
        rcases List.mem_cons.mp hx with rfl | hx'
        · rw [hxf] at hm
          cases hm
        · exact ⟨x, hx', hxf⟩
      obtain ⟨y, h1, h2, h3⟩ := ih hrest
      refine ⟨y, ?_, List.mem_cons_of_mem _ h2, h3⟩
      simp only [checkTracked]
      rw [if_pos hm]
      exact h1
    · refine ⟨m, ?_, List.mem_cons_self _ _, by simpa using hm⟩
      simp only [checkTracked]
      rw [if_neg hm]

/-! The claim theorems. -/

/-- C1: evaluation of the code at the claim's inputs.  With the disallowed
extra parameter `model = "other"` the call does not fail fast with
`DisallowedParam`, and with extra parameters disjoint from the disallowed
set the first check does not pass either: in both cases line 82 raises
`TypeError`, because the whole (unhashable) key view is hashed by the
frozenset membership test before any comparison happens. -/
theorem c1_disallowed_check_never_fires :
    Provider.call stubProvider overrideModelEllCall none
      = .error (.py (.typeError "unhashable type: dict_keys"))
    ∧ Provider.call stubProvider stubEllCall none
      = .error (.py (.typeError "unhashable type: dict_keys")) :=
  ⟨rfl, rfl⟩

/-- C2: evaluation of the code at the spec's stub scenario.  The end-to-end
call fails with the line-82 `TypeError` instead of returning one assistant
message; and even taken in isolation, the line-91 expression
`call(final_api_call_params)(**final_api_call_params)` does not invoke the
backend call function once with the native parameters as keywords: it
passes the whole parameter dictionary as a single positional argument,
which for the stub signature raises `TypeError` because `prompt` is left
unbound. -/
theorem c2_stub_scenario_fails :
    Provider.call stubProvider stubEllCall none
      = .error (.py (.typeError "unhashable type: dict_keys"))
    ∧ invokeLine91 stubBackend (stubProvider.translate_to_provider stubEllCall)
      = .error (.typeError "missing a required argument: prompt")
    ∧ validate_provider_call_params
        (stubProvider.translate_to_provider stubEllCall) stubSig = .ok () :=
  ⟨rfl, rfl, rfl⟩

/-- C3 counterexample: the catch-all keyword sink grants no exemption.  For
a callable with parameters `a`, `b` and a `**kwargs` sink, validating
`{a: 1, b: 2, c: 3}` fails with `UnexpectedParam "c"`, although the claim
says no such failure occurs when a sink is declared. -/
theorem c3_counterexample_sink_not_exempt :
    validate_provider_call_params
      [("a", .vInt 1), ("b", .vInt 2), ("c", .vInt 3)] sigWithSink
      = .error (.UnexpectedParam "c") := rfl

/-- C3 (amended): once the required-parameter loop succeeds and the earlier
supplied entries pass, a supplied name that is not literally among the
introspected parameter names fails with `UnexpectedParam`, for every
signature — whether or not it declares a catch-all keyword sink. -/
theorem c3_unexpected_param_amended (sig : Sig) (pre rest : List (String × PyVal))
    (n : String) (v : PyVal)
    (hreq : checkRequired (pre ++ (n, v) :: rest) (requiredNames sig) = .ok ())
    (hpre : checkProvided sig pre = .ok ())
    (hn : lookupSig sig n = none) :
    validate_provider_call_params (pre ++ (n, v) :: rest) sig
      = .error (.UnexpectedParam n) := by
  rw [validate_eq_provided _ _ hreq, checkProvided_append_ok sig pre _ hpre]
  simp [checkProvided, hn]

/-- C3 witness: the amended theorem applied to the stub signature with the
unknown key `x`. -/
theorem c3_unexpected_param_witness :
    validate_provider_call_params
      [("model", .vStr "m"), ("prompt", .vStr "p"), ("x", .vNone)] stubSig
      = .error (.UnexpectedParam "x") :=
  c3_unexpected_param_amended stubSig
    [("model", .vStr "m"), ("prompt", .vStr "p")] [] "x" .vNone rfl rfl rfl

/-- C4: `_validate_provider_call_params` fails with `MissingRequiredParam`
exactly when some introspected parameter with no default that is not the
catch-all keyword sink is absent from the converted call parameters; every
such failure names such a parameter; and when all of them are present the
required-parameter loop succeeds. -/
theorem c4_missing_required_iff (sig : Sig) (api : List (String × PyVal)) :
    ((∃ m, validate_provider_call_params api sig
        = .error (.MissingRequiredParam m))
      ↔ ∃ n ∈ requiredNames sig, memD n api = false)
    ∧ (∀ m, validate_provider_call_params api sig
          = .error (.MissingRequiredParam m) →
        m ∈ requiredNames sig ∧ memD m api = false)
    ∧ ((∀ n ∈ requiredNames sig, memD n api = true) →
        checkRequired api (requiredNames sig) = .ok ()) := by
  have hnames : ∀ m, validate_provider_call_params api sig
      = .error (.MissingRequiredParam m) →
      m ∈ requiredNames sig ∧ memD m api = false := by
    intro m h
    cases hr : checkRequired api (requiredNames sig) with
    | error e =>
      rw [validate_eq_error _ _ _ hr] at h
      injection h with h'
      obtain ⟨x, hx1, hx2, hx3⟩ := checkRequired_error _ _ _ hr
      rw [h'] at hx1
      injection hx1 with hx1
      rw [← hx1] at hx2 hx3
      exact ⟨hx2, hx3⟩
    | ok u =>
      cases u
      rw [validate_eq_provided _ _ hr] at h
      exact absurd h (checkProvided_ne_missing sig api m)
  refine ⟨⟨?_, ?_⟩, hnames, fun hall => (checkRequired_ok_iff _ _).mpr hall⟩
  · rintro ⟨m, hm⟩
    obtain ⟨h1, h2⟩ := hnames m hm
    exact ⟨m, h1, h2⟩
  · intro hex
    obtain ⟨m, h1, _, _⟩ := checkRequired_error_of_missing api _ hex
    exact ⟨m, validate_eq_error _ _ _ h1⟩

/-- C4 witness: for the stub signature (required `model` and `prompt`),
validating a parameter set missing `prompt` fails with
`MissingRequiredParam`, and validating the complete native parameters
passes the required-parameter loop. -/
theorem c4_missing_required_witness :
    (∃ m, validate_provider_call_params [("model", PyVal.vStr "m1")] stubSig
      = .error (.MissingRequiredParam m))
    ∧ checkRequired (stubProvider.translate_to_provider stubEllCall)
        (requiredNames stubSig) = .ok () :=
  ⟨(c4_missing_required_iff stubSig [("model", PyVal.vStr "m1")]).1.mpr
      ⟨"prompt", by decide, rfl⟩,
    (c4_missing_required_iff stubSig
        (stubProvider.translate_to_provider stubEllCall)).2.2
      (by decide)⟩

/-- C5: type checking of supplied parameters.  When the introspected
parameter of a supplied name declares a type and the value is not an
instance of it, validation fails with `TypeMismatch` for that name; when
the value is an instance, that entry passes; and when the parameter
declares no type, the entry passes with no type check at all, whatever the
value is. -/
theorem c5_type_check (sig : Sig) (pre rest : List (String × PyVal)) (n : String)
    (v : PyVal) (p : Param) (hp : lookupSig sig n = some p) :
    (∀ t, p.ann = some t → pyIsInstance v t = false →
      checkRequired (pre ++ (n, v) :: rest) (requiredNames sig) = .ok () →
      checkProvided sig pre = .ok () →
      validate_provider_call_params (pre ++ (n, v) :: rest) sig
        = .error (.TypeMismatch n t v))
    ∧ (∀ t, p.ann = some t → pyIsInstance v t = true →
      checkProvided sig pre = .ok () →
      checkProvided sig (pre ++ (n, v) :: rest) = checkProvided sig rest)
    ∧ (p.ann = none →
      checkProvided sig pre = .ok () →
      checkProvided sig (pre ++ (n, v) :: rest) = checkProvided sig rest) := by
  refine ⟨?_, ?_, ?_⟩
  · intro t hann hinst hreq hpre
    rw [validate_eq_provided _ _ hreq, checkProvided_append_ok sig pre _ hpre]
    simp [checkProvided, hp, hann, hinst]
  · intro t hann hinst hpre
    rw [checkProvided_append_ok sig pre _ hpre]
    simp [checkProvided, hp, hann, hinst]
  · intro hann hpre
    rw [checkProvided_append_ok sig pre _ hpre]
    simp [checkProvided, hp, hann]

/-- C5 witness: for a callable declaring `n : int`, supplying the string
value `"x"` fails with `TypeMismatch`, and supplying an integer passes. -/
theorem c5_type_check_witness :
    validate_provider_call_params [("n", PyVal.vStr "x")] sigTyped
      = .error (.TypeMismatch "n" .int (.vStr "x"))
    ∧ checkProvided sigTyped [("n", PyVal.vInt 3)] = checkProvided sigTyped [] :=
  ⟨(c5_type_check sigTyped [] [] "n" (.vStr "x")
      { default := none, ann := some .int, kind := .positionalOrKeyword }
      rfl).1 .int rfl rfl rfl rfl,
    (c5_type_check sigTyped [] [] "n" (.vInt 3)
      { default := none, ann := some .int, kind := .positionalOrKeyword }
      rfl).2.1 .int rfl rfl rfl⟩

/-- C6: provenance validation.  With no origin supplied the check is a
no-op; with an origin it succeeds exactly when every message's text is a
provenance-tagged string whose recorded origin equals the supplied one, and
it fails with `UntrackedMessage` exactly when some message is not so
tagged. -/
theorem c6_provenance :
    (∀ msgs : List Message, validate_messages_are_tracked msgs none = .ok ())
    ∧ (∀ (oid : String) (msgs : List Message),
        (validate_messages_are_tracked msgs (some oid) = .ok ()
          ↔ ∀ m ∈ msgs, isTracked oid m = true))
    ∧ (∀ (oid : String) (msgs : List Message),
        ((∃ m, validate_messages_are_tracked msgs (some oid)
            = .error (.UntrackedMessage m))
          ↔ ∃ m ∈ msgs, isTracked oid m = false)) := by
  refine ⟨fun msgs => rfl, fun oid msgs => ?_, fun oid msgs => ?_⟩
  · exact checkTracked_ok_iff oid msgs
  · constructor
    · rintro ⟨m, hm⟩
      obtain ⟨x, hx1, hx2, hx3⟩ := checkTracked_error oid msgs _ hm
      exact ⟨x, hx2, hx3⟩
    · intro hex
      obtain ⟨m, h1, _, _⟩ := checkTracked_error_of_untracked oid msgs hex
      exact ⟨m, h1⟩

/-- C6 witness: with origin `run-42`, a correctly tagged message list
passes and an untagged one fails with `UntrackedMessage`. -/
theorem c6_provenance_witness :
    validate_messages_are_tracked
      [{ role := "assistant", text := .lstr "ok" (some "run-42") }]
      (some "run-42") = .ok ()
    ∧ (∃ m, validate_messages_are_tracked
        [{ role := "assistant", text := .plain "ok" }]
        (some "run-42") = .error (.UntrackedMessage m)) :=
  ⟨(c6_provenance.2.1 "run-42" _).mpr
      (by
        intro m hm
        rw [List.mem_singleton] at hm
        subst hm
        rfl),
    (c6_provenance.2.2 "run-42" _).mpr
      ⟨{ role := "assistant", text := .plain "ok" }, List.mem_singleton.mpr rfl,
        rfl⟩⟩

/-- C7 counterexample: at the concrete descriptor with empty extra
parameters, the disallowed-parameter assertion does not pass — evaluating
the membership of the key view in the frozenset raises `TypeError`, because
the key-view object is unhashable. -/
theorem c7_counterexample_assert_raises :
    assertKeysNotDisallowed boomEllCall.api_params
      = .error (.py (.typeError "unhashable type: dict_keys")) := rfl

/-- C7 (amended): the assertion's failure branch is indeed unreachable for
every input, but not because the membership test returns false: hashing the
unhashable key-view object raises `TypeError` first, so `Provider.call`
raises that `TypeError` on every input, for every provider, and never
reports `DisallowedParam`. -/
theorem c7_assert_unreachable_amended (p : Provider) (ec : EllCallParams)
    (oid : Option String) :
    Provider.call p ec oid
      = .error (.py (.typeError "unhashable type: dict_keys")) := rfl

/-- C8: the advertised parameter set is the introspected parameter names of
the backend call function minus the disallowed set, so it never contains
`model`, `messages` or `tools` — even for a backend call function that
declares parameters with those names. -/
theorem c8_available_params :
    ∀ (p : Provider) (hint : Option (List (String × PyVal))),
      (∀ s : String,
        s ∈ p.available_api_params hint ↔
          (s ∈ (p.provider_call_function hint).sig.map Prod.fst
            ∧ s ∉ disallowed_api_params))
      ∧ "model" ∉ p.available_api_params hint
      ∧ "messages" ∉ p.available_api_params hint
      ∧ "tools" ∉ p.available_api_params hint := by
  intro p hint
  have hmem : ∀ s : String,
      s ∈ p.available_api_params hint ↔
        (s ∈ (p.provider_call_function hint).sig.map Prod.fst
          ∧ s ∉ disallowed_api_params) := by
    intro s
    simp [Provider.available_api_params, Finset.mem_sdiff, List.mem_toFinset]
  refine ⟨hmem, ?_, ?_, ?_⟩
  · intro h
    exact ((hmem _).mp h).2 (by decide)
  · intro h
    exact ((hmem _).mp h).2 (by decide)
  · intro h
    exact ((hmem _).mp h).2 (by decide)

/-- C8 witness: for the backend declaring `model`, `messages`, `tools` and
`temperature`, the advertised set omits the three disallowed names but
keeps `temperature`. -/
theorem c8_available_params_witness :
    "model" ∉ sneakyProvider.available_api_params none
    ∧ "temperature" ∈ sneakyProvider.available_api_params none :=
  ⟨(c8_available_params sneakyProvider none).2.1,
    ((c8_available_params sneakyProvider none).1 "temperature").mpr
      ⟨by decide, by decide⟩⟩

/-- C9: evaluation of the code with a backend call function that raises.
The backend's own error never reaches the caller, because `Provider.call`
raises the line-82 `TypeError` on every input before the backend call
function is ever invoked: the propagation step the claim describes is dead
code. -/
theorem c9_backend_error_never_reached :
    Provider.call boomProvider boomEllCall none
      = .error (.py (.typeError "unhashable type: dict_keys"))
    ∧ boomBackend.run [] = .error (.exn "boom") :=
  ⟨rfl, rfl⟩

/-- C10: a variadic positional parameter with no default is classified as
required by the comprehension (its kind differs from the catch-all keyword
sink), so validation fails with `MissingRequiredParam` whenever the
supplied parameters lack a key equal to the parameter's own name. -/
theorem c10_var_positional_required (sig : Sig) (api : List (String × PyVal))
    (n : String) (p : Param) (hmem : (n, p) ∈ sig)
    (hkind : p.kind = ParamKind.varPositional) (hdef : p.default = none) :
    n ∈ requiredNames sig
    ∧ (memD n api = false →
        ∃ m, validate_provider_call_params api sig
          = .error (.MissingRequiredParam m)) := by
  have hreq : n ∈ requiredNames sig := by
    unfold requiredNames
    refine List.mem_map.mpr ⟨(n, p), List.mem_filter.mpr ⟨hmem, ?_⟩, rfl⟩
    simp [hdef, hkind]
  refine ⟨hreq, fun habs => ?_⟩
  obtain ⟨m, h1, _, _⟩ :=
    checkRequired_error_of_missing api (requiredNames sig) ⟨n, hreq, habs⟩
  exact ⟨m, validate_eq_error _ _ _ h1⟩

/-- C10 witness: for a callable declaring only `*args`, validating an empty
parameter set fails with `MissingRequiredParam`. -/
theorem c10_var_positional_witness :
    "args" ∈ requiredNames sigVarArgs
    ∧ ∃ m, validate_provider_call_params [] sigVarArgs
      = .error (.MissingRequiredParam m) := by
  have h := c10_var_positional_required sigVarArgs [] "args"
    { default := none, ann := none, kind := .varPositional }
    (List.mem_singleton.mpr rfl) rfl rfl
  exact ⟨h.1, h.2 rfl⟩

end EllProvider
